import Mathlib

/-!
# The ggwave JNI bridge (ggwave-jni.cpp)

A shallow embedding of the four JNI entry points of
modules/expo-ggwave/android/src/main/cpp/ggwave-jni.cpp:

* Java_expo_modules_ggwave_GGWaveEngine_nativeInit
* Java_expo_modules_ggwave_GGWaveEngine_nativeEncode
* Java_expo_modules_ggwave_GGWaveEngine_nativeDecode
* Java_expo_modules_ggwave_GGWaveEngine_nativeDestroy

The GGWave class comes from an external header (ggwave/ggwave.h) that is not
part of the repository sources.  Its member functions are therefore taken as
parameters (structure `Engine`), each of which may return normally or throw.
The JNI environment and the C++ allocator are the other collaborators; what
they may do on one call (return NULL, throw) is given by the structure `Host`.

Every entry point is a function from the native heap before the call to a
`Run`: how the call ends, the native heap after it, and the ordered list of
the calls it made to its collaborators.

Conventions.
* A jlong handle is the address of the engine instance; 0 is the null pointer.
* A jfloat is represented by its bit pattern: the bridge never does
  arithmetic on samples, it only moves them.
* A byte is a natural number below 256; a C string ends at its first zero byte.
* A jsize is a 32 bit signed integer: the size_t that lines 84 and 90 pass to
  NewFloatArray and SetFloatArrayRegion is narrowed by `toJsize`.
* A std::string or std::vector construction can throw only when it has to
  allocate: a string longer than what the implementation stores in place, a
  vector that is not empty.
* Using a pointer to something that is no longer there is undefined behaviour
  and is reported as `Outcome.undefined`: a member function called through a
  pointer to no live instance, a delete of it, and a second
  ReleaseFloatArrayElements of a sample buffer that was already released.
-/

namespace GGWaveJni

/-- A jfloat, as its bit pattern. -/
abbrev JFloat := Nat

/-- One char of a native string. -/
abbrev Byte := Nat

/-- A thrown C++ object.  The clause `catch (const std::exception& e)` used by
every entry point matches the first kind only. -/
inductive NativeExc where
  | stdException (what : String)
  | foreign (tag : Nat)
  deriving DecidableEq, Repr

/-- The statements of the source that can throw. -/
inductive Site where
  /-- Line 28, `new GGWave(params)`. -/
  | construct
  /-- Line 57, `std::string cppText(textCStr)`. -/
  | copyText
  /-- Line 65, `instance->init(...)`. -/
  | txInit
  /-- Line 73, `instance->encode()`. -/
  | render
  /-- Line 81, `instance->getOutput(outputData)`. -/
  | getOutput
  /-- Line 122, `GGWave::TxRxData inputData(sampleData, sampleData + length)`. -/
  | buildInput
  /-- Line 125, `instance->decode(inputData)`. -/
  | rxDecode
  /-- Line 132, `instance->takeRxData(decodedData)`. -/
  | takeRxData
  /-- Line 135, `std::string decodedString(...)`. -/
  | buildText
  deriving DecidableEq, Repr

/-- The field values the source assigns to GGWave::Parameters (lines 23-25);
all other fields keep the defaults of the external header. -/
structure Parameters where
  sampleRateInp : Int
  sampleRateOut : Int
  sampleRate : Int
  deriving DecidableEq, Repr

/-- The last argument of ReleaseFloatArrayElements. -/
inductive ReleaseMode where
  /-- Mode 0: copy back and free. -/
  | copyBackAndFree
  /-- JNI_COMMIT: copy back, do not free. -/
  | commit
  /-- JNI_ABORT: free without copying back. -/
  | abort
  deriving DecidableEq, Repr

/-- What an entry point does to the outside, in program order.  Format
arguments of log lines are left out. -/
inductive Event where
  | logI (msg : String)
  | logE (msg : String)
  | getStringUTFChars
  | releaseStringUTFChars
  | newFloatArray (len : Int)
  | setFloatArrayRegion (start len : Int)
  | getFloatArrayElements
  | releaseFloatArrayElements (mode : ReleaseMode)
  | newStringUTF
  | engNew (params : Parameters)
  | engDelete (handle : Nat)
  | engInit (handle : Nat) (payload : List Byte) (protocol : Int) (volume : JFloat)
  | engEncode (handle : Nat)
  | engGetOutput (handle : Nat)
  | engDecode (handle : Nat) (input : List JFloat)
  | engTakeRxData (handle : Nat)
  | raised (site : Site) (e : NativeExc)
  deriving DecidableEq, Repr

/-- Whether the event is a call into the engine (constructor, destructor or a
member function reached through the instance pointer). -/
def Event.isEngineCall : Event → Bool
  | .engNew _ => true
  | .engDelete _ => true
  | .engInit _ _ _ _ => true
  | .engEncode _ => true
  | .engGetOutput _ => true
  | .engDecode _ _ => true
  | .engTakeRxData _ => true
  | _ => false

/-- Whether the event is a JNI call that reads or allocates a host buffer. -/
def Event.isHostBufferCall : Event → Bool
  | .getStringUTFChars => true
  | .releaseStringUTFChars => true
  | .newFloatArray _ => true
  | .setFloatArrayRegion _ _ => true
  | .getFloatArrayElements => true
  | .releaseFloatArrayElements _ => true
  | .newStringUTF => true
  | _ => false

/-- Whether the event is a release of the borrowed sample buffer. -/
def Event.isRelease : Event → Bool
  | .releaseFloatArrayElements _ => true
  | _ => false

/-- How a call of an entry point ends. -/
inductive Outcome (α : Type) where
  /-- The function returns the value to the host. -/
  | returned (value : α)
  /-- A C++ exception leaves the function and unwinds into the host. -/
  | propagated (e : NativeExc)
  /-- The call runs into undefined behaviour. -/
  | undefined
  deriving DecidableEq, Repr

/-- Result of an engine member function: it returns a value or throws; in both
cases the instance is left in some state. -/
inductive Step (E α : Type) where
  | ok (value : α) (next : E)
  | throws (e : NativeExc) (next : E)
  deriving DecidableEq, Repr

/-- Result of the new-expression of line 28. -/
inductive Built (E : Type) where
  | ok (st : E)
  | throws (e : NativeExc)
  deriving DecidableEq, Repr

/-- The external GGWave class, with instance states of type E.
takeRxData yields the decodedData.size() chars found at decodedData.data(),
which is what line 135 reads. -/
structure Engine (E : Type) where
  construct : Parameters → Built E
  init : E → List Byte → Int → JFloat → Step E Int
  encode : E → Step E Int
  getOutput : E → Step E (List JFloat)
  decode : E → List JFloat → Step E Int
  takeRxData : E → Step E (List Byte)

/-- What the JNI environment and the C++ allocator do during one call. -/
structure Host where
  /-- GetStringUTFChars returns a non-null pointer. -/
  getStringUTFChars : Bool
  /-- The longest string a std::string stores in place, without allocating
  (15 chars in libstdc++, 22 in libc++ on 64 bit targets). -/
  inlineCapacity : Nat
  /-- The exception thrown when `std::string cppText(textCStr)` allocates, if
  any. -/
  stringCopy : Option NativeExc
  /-- NewFloatArray returns a non-null array. -/
  newFloatArray : Bool
  /-- GetFloatArrayElements returns a non-null pointer. -/
  getFloatArrayElements : Bool
  /-- The exception thrown when the TxRxData range constructor allocates, if
  any. -/
  vectorCopy : Option NativeExc
  /-- The exception thrown when `std::string decodedString(...)` allocates, if
  any. -/
  stringBuild : Option NativeExc
  /-- NewStringUTF returns a non-null string. -/
  newStringUTF : Bool
  deriving DecidableEq, Repr

/-- What the construction of a std::string of the given size throws: nothing
when the chars fit in place, otherwise what the allocation throws. -/
def Host.stringThrows (host : Host) (alloc : Option NativeExc) (size : Nat) :
    Option NativeExc :=
  if size ≤ host.inlineCapacity then none else alloc

/-- What the construction of a std::vector of the given size throws: nothing
when it is empty, otherwise what the allocation throws. -/
def Host.vectorThrows (alloc : Option NativeExc) (size : Nat) : Option NativeExc :=
  if size = 0 then none else alloc

/-- The native heap: the live engine instances by address. -/
abbrev Heap (E : Type) := List (Nat × E)

/-- The instance at an address, if one is live there. -/
def find {E : Type} : Heap E → Nat → Option E
  | [], _ => none
  | (a, st) :: rest, h => if a = h then some st else find rest h

/-- The instance at an address takes a new state. -/
def store {E : Type} : Heap E → Nat → E → Heap E
  | [], _, _ => []
  | (a, s) :: rest, h, st =>
    if a = h then (a, st) :: store rest h st else (a, s) :: store rest h st

/-- The instance at an address is deleted. -/
def erase {E : Type} : Heap E → Nat → Heap E
  | [], _ => []
  | (a, s) :: rest, h => if a = h then erase rest h else (a, s) :: erase rest h

/-- The addresses of the live instances. -/
def addresses {E : Type} (heap : Heap E) : List Nat :=
  heap.map Prod.fst

/-- The operator new of the C++ runtime: the address it returns is not null and
is not the address of a live object. -/
structure Allocator where
  pick : List Nat → Nat
  pick_ne_zero : ∀ live, pick live ≠ 0
  pick_fresh : ∀ live, pick live ∉ live

/-- An allocator that hands out the address after the highest live one. -/
def bumpAllocator : Allocator where
  pick live := live.foldr max 0 + 1
  pick_ne_zero _ := Nat.succ_ne_zero _
  pick_fresh live := by
    have hle : ∀ (l : List Nat) (a : Nat), a ∈ l → a ≤ l.foldr max 0 := by
      intro l
      induction l with
      | nil => intro a ha; cases ha
      | cons b t ih =>
        intro a ha
        rcases List.mem_cons.mp ha with h | h
        · subst h; exact Nat.le_max_left _ _
        · exact Nat.le_trans (ih a h) (Nat.le_max_right _ _)
    intro hmem
    exact Nat.not_succ_le_self _ (hle live _ hmem)

/-- One call of an entry point. -/
structure Run (E α : Type) where
  outcome : Outcome α
  heap : Heap E
  events : List Event
  deriving DecidableEq, Repr

/-- The events that happened before the rest of the call. -/
def Run.after {E α : Type} (evs : List Event) (r : Run E α) : Run E α :=
  { r with events := evs ++ r.events }

/-- The clause `catch (const std::exception& e)`: a std::exception leaving the
try block is handled, anything else passes through. -/
def catchStd {E α : Type} (body : Run E α) (handler : String → Outcome α × List Event) :
    Run E α :=
  match body.outcome with
  | .propagated (.stdException what) =>
    { outcome := (handler what).1, heap := body.heap,
      events := body.events ++ (handler what).2 }
  | _ => body

/-- The chars of a C string: those before the first zero byte. -/
def cString (bytes : List Byte) : List Byte :=
  bytes.takeWhile (fun b => b != 0)

/-- The conversion of a size_t to jsize, a 32 bit signed integer: the value
modulo 2^32, read as two's complement. -/
def toJsize (size : Nat) : Int :=
  if size % 4294967296 < 2147483648 then ((size % 4294967296 : Nat) : Int)
  else ((size % 4294967296 : Nat) : Int) - 4294967296

/-- NewFloatArray: a fresh host array of the given length, zero filled. -/
def newFloatArray (len : Nat) : List JFloat :=
  List.replicate len 0

/-- SetFloatArrayRegion: copies len elements of buf over the array from index
start; a region outside the array leaves the array as it is. -/
def setFloatArrayRegion (arr : List JFloat) (start len : Int) (buf : List JFloat) :
    List JFloat :=
  if 0 ≤ start ∧ 0 ≤ len ∧ start + len ≤ (arr.length : Int) then
    arr.take start.toNat ++ buf.take len.toNat ++ arr.drop (start + len).toNat
  else arr

/-- Lines 16-36. -/
def Java_expo_modules_ggwave_GGWaveEngine_nativeInit {E : Type} (G : Engine E)
    (A : Allocator) (heap : Heap E) (sampleRate : Int) : Run E Nat :=
  Run.after [.logI "Initializing ggwave with sample rate"]
    (catchStd
      (let params : Parameters :=
          { sampleRateInp := sampleRate, sampleRateOut := sampleRate,
            sampleRate := sampleRate }
       Run.after [.engNew params]
        (match G.construct params with
         | .throws e => ⟨.propagated e, heap, [.raised .construct e]⟩
         | .ok st =>
           let instance_ := A.pick (addresses heap)
           ⟨.returned instance_, (instance_, st) :: heap,
            [.logI "GGWave instance created successfully"]⟩))
      (fun _ => (.returned 0, [.logE "Failed to initialize ggwave"])))

/-- Lines 62-94, the try block of nativeEncode.  NewFloatArray gets the size
of outputData narrowed to jsize; for a negative length no array can be
constructed and it returns NULL. -/
def encodeTry {E : Type} (G : Engine E) (host : Host) (heap : Heap E) (handle : Nat)
    (cppText : List Byte) (protocol : Int) (volume : JFloat) :
    Run E (Option (List JFloat)) :=
  Run.after [.engInit handle cppText protocol volume]
    (match find heap handle with
     | none => ⟨.undefined, heap, []⟩
     | some st0 =>
       match G.init st0 cppText protocol volume with
       | .throws e st1 => ⟨.propagated e, store heap handle st1, [.raised .txInit e]⟩
       | .ok result st1 =>
         if result = 0 then
           ⟨.returned none, store heap handle st1, [.logE "Failed to initialize encoding"]⟩
         else
           Run.after [.engEncode handle]
             (match G.encode st1 with
              | .throws e st2 => ⟨.propagated e, store heap handle st2, [.raised .render e]⟩
              | .ok waveformSize st2 =>
                if waveformSize ≤ 0 then
                  ⟨.returned none, store heap handle st2,
                   [.logE "Failed to generate waveform"]⟩
                else
                  Run.after [.engGetOutput handle]
                    (match G.getOutput st2 with
                     | .throws e st3 =>
                       ⟨.propagated e, store heap handle st3, [.raised .getOutput e]⟩
                     | .ok outputData st3 =>
                       let len := toJsize outputData.length
                       Run.after [.newFloatArray len]
                         (if len < 0 ∨ host.newFloatArray = false then
                            ⟨.returned none, store heap handle st3,
                             [.logE "Failed to allocate float array"]⟩
                          else
                            let result_array := newFloatArray len.toNat
                            ⟨.returned (some (setFloatArrayRegion result_array 0 len
                                outputData)),
                             store heap handle st3,
                             [.setFloatArrayRegion 0 len,
                              .logI "Encoded successfully"]⟩))))

/-- Lines 39-99.  The text is the modified UTF-8 char array that
GetStringUTFChars hands out. -/
def Java_expo_modules_ggwave_GGWaveEngine_nativeEncode {E : Type} (G : Engine E)
    (host : Host) (heap : Heap E) (handle : Nat) (text : List Byte) (protocol : Int)
    (volume : JFloat) : Run E (Option (List JFloat)) :=
  if handle = 0 then
    ⟨.returned none, heap, [.logE "Invalid ggwave handle"]⟩
  else
    Run.after [.getStringUTFChars]
      (if host.getStringUTFChars = false then
         ⟨.returned none, heap, [.logE "Failed to get string UTF chars"]⟩
       else
         match host.stringThrows host.stringCopy (cString text).length with
         | some e => ⟨.propagated e, heap, [.raised .copyText e]⟩
         | none =>
           let cppText := cString text
           Run.after [.releaseStringUTFChars, .logI "Encoding text"]
             (catchStd (encodeTry G host heap handle cppText protocol volume)
               (fun _ => (.returned none, [.logE "Exception during encoding"]))))

/-- Lines 120-144, the try block of nativeDecode.  Reading length samples from
sampleData is defined only when 0 ≤ length ≤ the size of the host array. -/
def decodeTry {E : Type} (G : Engine E) (host : Host) (heap : Heap E) (handle : Nat)
    (samples : List JFloat) (length : Int) : Run E (Option (List Byte)) :=
  if length < 0 ∨ (samples.length : Int) < length then
    ⟨.undefined, heap, []⟩
  else
    match Host.vectorThrows host.vectorCopy (samples.take length.toNat).length with
    | some e => ⟨.propagated e, heap, [.raised .buildInput e]⟩
    | none =>
      let inputData := samples.take length.toNat
      Run.after [.engDecode handle inputData]
        (match find heap handle with
         | none => ⟨.undefined, heap, []⟩
         | some st0 =>
           match G.decode st0 inputData with
           | .throws e st1 => ⟨.propagated e, store heap handle st1, [.raised .rxDecode e]⟩
           | .ok decodedBytes st1 =>
             Run.after [.releaseFloatArrayElements .abort]
               (if 0 < decodedBytes then
                  Run.after [.engTakeRxData handle]
                    (match G.takeRxData st1 with
                     | .throws e st2 =>
                       ⟨.propagated e, store heap handle st2, [.raised .takeRxData e]⟩
                     | .ok decodedData st2 =>
                       match host.stringThrows host.stringBuild decodedData.length with
                       | some e =>
                         ⟨.propagated e, store heap handle st2, [.raised .buildText e]⟩
                       | none =>
                         let decodedString := decodedData
                         Run.after [.logI "Decoded", .newStringUTF]
                           (if host.newStringUTF = false then
                              ⟨.returned none, store heap handle st2, []⟩
                            else
                              ⟨.returned (some (cString decodedString)),
                               store heap handle st2, []⟩))
                else
                  ⟨.returned none, store heap handle st1, []⟩))

/-- Lines 145-149, the handler of nativeDecode.  Line 146 releases sampleData.
When the try block has already released it on line 127, this is a second
release of the same buffer: undefined behaviour. -/
def decodeCatch {E : Type} (body : Run E (Option (List Byte))) :
    Run E (Option (List Byte)) :=
  match body.outcome with
  | .propagated (.stdException _) =>
    if body.events.any Event.isRelease then
      { outcome := .undefined, heap := body.heap,
        events := body.events ++ [.releaseFloatArrayElements .abort] }
    else
      { outcome := .returned none, heap := body.heap,
        events := body.events ++
          [.releaseFloatArrayElements .abort, .logE "Exception during decoding"] }
  | _ => body

/-- Lines 102-150.  A returned string is given by the chars NewStringUTF reads
from decodedString.c_str(). -/
def Java_expo_modules_ggwave_GGWaveEngine_nativeDecode {E : Type} (G : Engine E)
    (host : Host) (heap : Heap E) (handle : Nat) (samples : List JFloat) (length : Int) :
    Run E (Option (List Byte)) :=
  if handle = 0 then
    ⟨.returned none, heap, [.logE "Invalid ggwave handle"]⟩
  else
    Run.after [.getFloatArrayElements]
      (if host.getFloatArrayElements = false then
         ⟨.returned none, heap, [.logE "Failed to get float array elements"]⟩
       else
         decodeCatch (decodeTry G host heap handle samples length))

/-- Lines 153-161. -/
def Java_expo_modules_ggwave_GGWaveEngine_nativeDestroy {E : Type} (heap : Heap E)
    (handle : Nat) : Run E Unit :=
  if handle ≠ 0 then
    Run.after [.engDelete handle]
      (match find heap handle with
       | none => ⟨.undefined, heap, []⟩
       | some _ => ⟨.returned (), erase heap handle, [.logI "GGWave instance destroyed"]⟩)
  else
    ⟨.returned (), heap, []⟩

/-! ## Concrete collaborators used to evaluate the entry points -/

/-- What a scripted member function answers. -/
inductive Reply (α : Type) where
  | value (a : α)
  | throws (e : NativeExc)
  deriving DecidableEq, Repr

/-- The answer as a step of an engine whose state counts the calls made. -/
def Reply.step {α : Type} (r : Reply α) (st : Nat) : Step Nat α :=
  match r with
  | .value a => .ok a (st + 1)
  | .throws e => .throws e (st + 1)

/-- A fixed answer for every member function of the engine. -/
structure Script where
  construct : Option NativeExc
  init : Reply Int
  encode : Reply Int
  getOutput : Reply (List JFloat)
  decode : Reply Int
  takeRxData : Reply (List Byte)
  deriving DecidableEq, Repr

/-- The engine that follows a script. -/
def scripted (s : Script) : Engine Nat where
  construct _ :=
    match s.construct with
    | none => .ok 0
    | some e => .throws e
  init st _ _ _ := s.init.step st
  encode st := s.encode.step st
  getOutput st := s.getOutput.step st
  decode st _ := s.decode.step st
  takeRxData st := s.takeRxData.step st

/-- A script on which every step succeeds: three samples out, two bytes in. -/
def happyScript : Script where
  construct := none
  init := .value 1
  encode := .value 3
  getOutput := .value [10, 20, 30]
  decode := .value 2
  takeRxData := .value [104, 105]

/-- A host on which every JNI call and every native allocation succeeds. -/
def happyHost : Host where
  getStringUTFChars := true
  inlineCapacity := 15
  stringCopy := none
  newFloatArray := true
  getFloatArrayElements := true
  vectorCopy := none
  stringBuild := none
  newStringUTF := true

/-- A heap with one live engine instance, at address 7. -/
def oneSession : Heap Nat := [(7, 0)]

/-- The transmit-initialize step throws an object that is no std::exception. -/
def foreignInitScript : Script :=
  { happyScript with init := .throws (.foreign 42) }

/-- The transmit-initialize step throws a std::runtime_error. -/
def stdInitScript : Script :=
  { happyScript with init := .throws (.stdException "std::runtime_error") }

/-- The transmit-initialize step returns zero: the request is rejected. -/
def rejectScript : Script :=
  { happyScript with init := .value 0 }

/-- The render step reports one sample, the output retrieval hands out none. -/
def emptyOutputScript : Script :=
  { happyScript with encode := .value 1, getOutput := .value [] }

/-- The render step reports two samples, the output retrieval hands out three. -/
def shortCountScript : Script :=
  { happyScript with encode := .value 2 }

/-- Three bytes are decoded, the second of them zero. -/
def zeroByteScript : Script :=
  { happyScript with decode := .value 3, takeRxData := .value [97, 0, 98] }

/-- The drain of the receive buffer throws a std::runtime_error. -/
def drainThrowsScript : Script :=
  { happyScript with takeRxData := .throws (.stdException "std::runtime_error") }

/-- The constructor throws an object that is no std::exception. -/
def foreignCtorScript : Script :=
  { happyScript with construct := some (.foreign 42) }

/-- The constructor throws a std::runtime_error. -/
def stdCtorScript : Script :=
  { happyScript with construct := some (.stdException "std::runtime_error") }

/-- A host on which the copy of the text into cppText runs out of memory. -/
def textCopyFailsHost : Host :=
  { happyHost with stringCopy := some (.stdException "std::bad_alloc") }

/-- A host on which the construction of decodedString runs out of memory. -/
def textBuildFailsHost : Host :=
  { happyHost with stringBuild := some (.stdException "std::bad_alloc") }

/-- A text of 24 chars, longer than what a std::string stores in place. -/
def longText : List Byte := List.replicate 24 97

/-- The drain yields a payload of 24 bytes. -/
def longPayloadScript : Script :=
  { happyScript with decode := .value 24, takeRxData := .value (List.replicate 24 97) }

/-- The parameters the bridge builds for a 48000 Hz session. -/
def params48k : Parameters :=
  { sampleRateInp := 48000, sampleRateOut := 48000, sampleRate := 48000 }

/-! ## The native heap -/

theorem find_store {E : Type} (heap : Heap E) (h h2 : Nat) (st : E) :
    find (store heap h st) h2 =
      if h2 = h then (find heap h2).map (fun _ => st) else find heap h2 := by
  induction heap with
  | nil => simp [store, find]
  | cons p rest ih =>
    obtain ⟨a, s⟩ := p
    by_cases hah : a = h
    · by_cases h2h : h2 = h
      · simp [store, find, hah, h2h]
      · have hne : ¬ h = h2 := fun e => h2h e.symm
        simp [store, find, hah, h2h, hne, ih]
    · by_cases h2h : h2 = h
      · subst h2h
        simp [store, find, hah, ih]
      · by_cases ha2 : a = h2
        · simp [store, find, hah, h2h, ha2]
        · simp [store, find, hah, h2h, ha2, ih]

theorem find_erase {E : Type} (heap : Heap E) (h h2 : Nat) :
    find (erase heap h) h2 = if h2 = h then none else find heap h2 := by
  induction heap with
  | nil => simp [erase, find]
  | cons p rest ih =>
    obtain ⟨a, s⟩ := p
    by_cases hah : a = h
    · by_cases h2h : h2 = h
      · subst h2h
        simp [erase, find, hah, ih]
      · have hne : ¬ h = h2 := fun e => h2h e.symm
        simp [erase, find, hah, h2h, hne, ih]
    · by_cases h2h : h2 = h
      · subst h2h
        simp [erase, find, hah, ih]
      · by_cases ha2 : a = h2
        · simp [erase, find, hah, h2h, ha2]
        · simp [erase, find, hah, h2h, ha2, ih]

theorem find_eq_none_of_not_mem {E : Type} (heap : Heap E) (h : Nat)
    (hmem : h ∉ addresses heap) : find heap h = none := by
  induction heap with
  | nil => rfl
  | cons p rest ih =>
    obtain ⟨a, s⟩ := p
    simp only [addresses, List.map_cons, List.mem_cons, not_or] at hmem
    have hne : ¬ a = h := fun e => hmem.1 e.symm
    simp only [find, hne, if_false]
    exact ih hmem.2

/-- Destroying a live handle deletes its instance: afterwards the handle is
dead, and every other handle maps to what it mapped to before. -/
theorem destroy_makes_handle_dead {E : Type} (heap : Heap E) (h : Nat) (st : E)
    (hh : h ≠ 0) (hlive : find heap h = some st) :
    (Java_expo_modules_ggwave_GGWaveEngine_nativeDestroy heap h).outcome = .returned ()
      ∧ find (Java_expo_modules_ggwave_GGWaveEngine_nativeDestroy heap h).heap h = none
      ∧ (∀ h2, h2 ≠ h →
        find (Java_expo_modules_ggwave_GGWaveEngine_nativeDestroy heap h).heap h2
          = find heap h2) := by
  simp [Java_expo_modules_ggwave_GGWaveEngine_nativeDestroy, Run.after, hh, hlive,
    find_erase]
  intro h2 hne
  simp [hne]

/-! ## The sentinel handle -/

/-- C2. Called with the sentinel handle 0, encode and decode return null after
one error log line, without any JNI buffer call and without any engine call,
and leave the native heap as it was; destroy with handle 0 does nothing at
all. -/
theorem sentinel_handle_has_no_effect {E : Type} (G : Engine E) (host : Host)
    (heap : Heap E) (text : List Byte) (protocol : Int) (volume : JFloat)
    (samples : List JFloat) (length : Int) :
    Java_expo_modules_ggwave_GGWaveEngine_nativeEncode G host heap 0 text protocol volume
        = ⟨.returned none, heap, [.logE "Invalid ggwave handle"]⟩
      ∧ Java_expo_modules_ggwave_GGWaveEngine_nativeDecode G host heap 0 samples length
        = ⟨.returned none, heap, [.logE "Invalid ggwave handle"]⟩
      ∧ Java_expo_modules_ggwave_GGWaveEngine_nativeDestroy heap 0
        = ⟨.returned (), heap, []⟩
      ∧ (∀ e ∈ (Java_expo_modules_ggwave_GGWaveEngine_nativeEncode G host heap 0 text
            protocol volume).events, e.isEngineCall = false ∧ e.isHostBufferCall = false)
      ∧ (∀ e ∈ (Java_expo_modules_ggwave_GGWaveEngine_nativeDecode G host heap 0 samples
            length).events, e.isEngineCall = false ∧ e.isHostBufferCall = false) := by
  refine ⟨rfl, rfl, rfl, ?_, ?_⟩
  · intro e he
    simp [Java_expo_modules_ggwave_GGWaveEngine_nativeEncode] at he
    subst he
    exact ⟨rfl, rfl⟩
  · intro e he
    simp [Java_expo_modules_ggwave_GGWaveEngine_nativeDecode] at he
    subst he
    exact ⟨rfl, rfl⟩

/-- C3, as stated, fails. Handle 7 is destroyed and then used again: encode
and decode do not return null, they call the engine through the stale
pointer. The same happens with a handle that was never issued. -/
theorem stale_handle_reaches_engine :
    find (Java_expo_modules_ggwave_GGWaveEngine_nativeDestroy oneSession 7).heap 7 = none
      ∧ (Java_expo_modules_ggwave_GGWaveEngine_nativeEncode (scripted happyScript) happyHost
          (Java_expo_modules_ggwave_GGWaveEngine_nativeDestroy oneSession 7).heap 7 [104, 105] 1 0).outcome = .undefined
      ∧ (Java_expo_modules_ggwave_GGWaveEngine_nativeEncode (scripted happyScript) happyHost
          (Java_expo_modules_ggwave_GGWaveEngine_nativeDestroy oneSession 7).heap 7 [104, 105] 1 0).outcome ≠ .returned none
      ∧ Event.engInit 7 [104, 105] 1 0 ∈
        (Java_expo_modules_ggwave_GGWaveEngine_nativeEncode (scripted happyScript) happyHost
          (Java_expo_modules_ggwave_GGWaveEngine_nativeDestroy oneSession 7).heap 7 [104, 105] 1 0).events
      ∧ (Java_expo_modules_ggwave_GGWaveEngine_nativeDecode (scripted happyScript) happyHost
          (Java_expo_modules_ggwave_GGWaveEngine_nativeDestroy oneSession 7).heap 7 [1, 2, 3] 3).outcome = .undefined
      ∧ (Java_expo_modules_ggwave_GGWaveEngine_nativeDecode (scripted happyScript) happyHost
          (Java_expo_modules_ggwave_GGWaveEngine_nativeDestroy oneSession 7).heap 7 [1, 2, 3] 3).outcome ≠ .returned none
      ∧ Event.engDecode 7 [1, 2, 3] ∈
        (Java_expo_modules_ggwave_GGWaveEngine_nativeDecode (scripted happyScript) happyHost
          (Java_expo_modules_ggwave_GGWaveEngine_nativeDestroy oneSession 7).heap 7 [1, 2, 3] 3).events
      ∧ find ([] : Heap Nat) 5 = none
      ∧ (Java_expo_modules_ggwave_GGWaveEngine_nativeEncode (scripted happyScript) happyHost ([] : Heap Nat) 5 [104, 105] 1 0).outcome
        = .undefined
      ∧ Event.engInit 5 [104, 105] 1 0 ∈
        (Java_expo_modules_ggwave_GGWaveEngine_nativeEncode (scripted happyScript) happyHost ([] : Heap Nat) 5 [104, 105] 1 0).events := by
  decide

/-- C3, amended. For a handle that is not live: the sentinel 0 is rejected at
once, with null returned and no engine call; a non-zero handle is not checked
any further, so once the host buffer is acquired and the native copy is built
the engine is called through the dead pointer, which is undefined behaviour
and not a null return. -/
theorem handle_validation_is_sentinel_only {E : Type} (G : Engine E) (host : Host)
    (heap : Heap E) (h : Nat) (text : List Byte) (protocol : Int) (volume : JFloat)
    (samples : List JFloat) (length : Int) (hdead : find heap h = none) :
    (h = 0 →
        (Java_expo_modules_ggwave_GGWaveEngine_nativeEncode G host heap h text protocol
            volume).outcome = .returned none
        ∧ (Java_expo_modules_ggwave_GGWaveEngine_nativeDecode G host heap h samples
            length).outcome = .returned none
        ∧ (∀ e ∈ (Java_expo_modules_ggwave_GGWaveEngine_nativeEncode G host heap h text
            protocol volume).events, e.isEngineCall = false)
        ∧ (∀ e ∈ (Java_expo_modules_ggwave_GGWaveEngine_nativeDecode G host heap h samples
            length).events, e.isEngineCall = false))
      ∧ (h ≠ 0 → host.getStringUTFChars = true → host.stringCopy = none →
        (Java_expo_modules_ggwave_GGWaveEngine_nativeEncode G host heap h text protocol
            volume).outcome = .undefined
        ∧ Event.engInit h (cString text) protocol volume ∈
          (Java_expo_modules_ggwave_GGWaveEngine_nativeEncode G host heap h text protocol
            volume).events)
      ∧ (h ≠ 0 → host.getFloatArrayElements = true → host.vectorCopy = none →
        0 ≤ length → length ≤ (samples.length : Int) →
        (Java_expo_modules_ggwave_GGWaveEngine_nativeDecode G host heap h samples
            length).outcome = .undefined
        ∧ Event.engDecode h (samples.take length.toNat) ∈
          (Java_expo_modules_ggwave_GGWaveEngine_nativeDecode G host heap h samples
            length).events) := by
  refine ⟨?_, ?_, ?_⟩
  · intro h0
    subst h0
    refine ⟨rfl, rfl, ?_, ?_⟩
    · intro e he
      simp [Java_expo_modules_ggwave_GGWaveEngine_nativeEncode] at he
      subst he
      rfl
    · intro e he
      simp [Java_expo_modules_ggwave_GGWaveEngine_nativeDecode] at he
      subst he
      rfl
  · intro hne hget hcopy
    simp [Java_expo_modules_ggwave_GGWaveEngine_nativeEncode, encodeTry, catchStd,
      Run.after, Host.stringThrows, hne, hget, hcopy, hdead]
  · intro hne hget hcopy hlo hhi
    have hrange : ¬ (length < 0 ∨ (samples.length : Int) < length) := by omega
    simp [Java_expo_modules_ggwave_GGWaveEngine_nativeDecode, decodeTry, decodeCatch,
      Run.after, Host.vectorThrows, hne, hget, hcopy, hdead, hrange]

/-- Witness for C3, amended: handle 5 was never issued. -/
theorem handle_validation_is_sentinel_only_witness :
    find ([] : Heap Nat) 5 = none
      ∧ (Java_expo_modules_ggwave_GGWaveEngine_nativeEncode (scripted happyScript)
          happyHost ([] : Heap Nat) 5 [104, 105] 1 0).outcome = .undefined
      ∧ (Java_expo_modules_ggwave_GGWaveEngine_nativeDecode (scripted happyScript)
          happyHost ([] : Heap Nat) 5 [1, 2, 3] 2).outcome = .undefined :=
  ⟨rfl,
   ((handle_validation_is_sentinel_only (scripted happyScript) happyHost ([] : Heap Nat) 5
      [104, 105] 1 0 [1, 2, 3] 2 rfl).2.1 (by decide) rfl rfl).1,
   ((handle_validation_is_sentinel_only (scripted happyScript) happyHost ([] : Heap Nat) 5
      [104, 105] 1 0 [1, 2, 3] 2 rfl).2.2 (by decide) rfl rfl (by decide) (by decide)).1⟩

/-! ## Exceptions at the boundary -/

theorem encodeTry_raised {E : Type} (G : Engine E) (host : Host) (heap : Heap E)
    (h : Nat) (cppText : List Byte) (protocol : Int) (volume : JFloat) (site : Site)
    (e : NativeExc) :
    Event.raised site e ∈ (encodeTry G host heap h cppText protocol volume).events →
      (encodeTry G host heap h cppText protocol volume).outcome = .propagated e := by
  unfold encodeTry
  simp only [Run.after]
  repeat' split
  all_goals simp
  all_goals (intros; simp_all)

theorem decodeTry_raised {E : Type} (G : Engine E) (host : Host) (heap : Heap E)
    (h : Nat) (samples : List JFloat) (length : Int) (site : Site) (e : NativeExc) :
    Event.raised site e ∈ (decodeTry G host heap h samples length).events →
      (decodeTry G host heap h samples length).outcome = .propagated e := by
  unfold decodeTry
  simp only [Run.after]
  repeat' split
  all_goals simp
  all_goals (intros; simp_all)

theorem catchStd_of_std {E α : Type} (body : Run E α)
    (handler : String → Outcome α × List Event) (what : String)
    (hbody : body.outcome = .propagated (.stdException what)) :
    (catchStd body handler).outcome = (handler what).1 := by
  simp [catchStd, hbody]

theorem catchStd_of_foreign {E α : Type} (body : Run E α)
    (handler : String → Outcome α × List Event) (tag : Nat)
    (hbody : body.outcome = .propagated (.foreign tag)) :
    catchStd body handler = body := by
  simp [catchStd, hbody]

theorem catchStd_events_raised {E α : Type} (body : Run E α)
    (handler : String → Outcome α × List Event) (site : Site) (e : NativeExc)
    (hlog : ∀ what, Event.raised site e ∉ (handler what).2)
    (hmem : Event.raised site e ∈ (catchStd body handler).events) :
    Event.raised site e ∈ body.events := by
  unfold catchStd at hmem
  split at hmem
  · rename_i what _
    simp only [List.mem_append] at hmem
    rcases hmem with hm | hm
    · exact hm
    · exact absurd hm (hlog what)
  · exact hmem

theorem decodeCatch_events_raised {E : Type} (body : Run E (Option (List Byte)))
    (site : Site) (e : NativeExc)
    (hmem : Event.raised site e ∈ (decodeCatch body).events) :
    Event.raised site e ∈ body.events := by
  unfold decodeCatch at hmem
  repeat' split at hmem
  all_goals simp_all

theorem decodeCatch_of_foreign {E : Type} (body : Run E (Option (List Byte))) (tag : Nat)
    (hbody : body.outcome = .propagated (.foreign tag)) :
    decodeCatch body = body := by
  simp [decodeCatch, hbody]

/-- C1, as stated, fails: on the live handle 7 the engine throws an object
that is no std::exception from the transmit-initialize step; the catch clause
of line 95 does not match it and the exception leaves encode. -/
theorem exception_escapes_encode :
    find oneSession 7 = some 0
      ∧ (scripted foreignInitScript).init 0 (cString [104, 105]) 1 0
        = .throws (.foreign 42) 1
      ∧ Event.raised .txInit (.foreign 42) ∈
        (Java_expo_modules_ggwave_GGWaveEngine_nativeEncode (scripted foreignInitScript) happyHost oneSession 7 [104, 105] 1 0).events
      ∧ (Java_expo_modules_ggwave_GGWaveEngine_nativeEncode (scripted foreignInitScript) happyHost oneSession 7 [104, 105] 1 0).outcome
        = .propagated (.foreign 42)
      ∧ (Java_expo_modules_ggwave_GGWaveEngine_nativeEncode (scripted foreignInitScript) happyHost oneSession 7 [104, 105] 1 0).outcome
        ≠ .returned none := by
  decide

/-- C1, amended. For every handle and every input: when a statement inside the
try block of encode (transmit-initialize, render, output retrieval), or a
statement of the try block of decode that stands before the release of the
sample buffer (building the sample buffer, engine decode), throws an
exception derived from std::exception, the operation returns null and nothing
propagates. An exception of any other type, thrown by any statement of encode
or decode, leaves the operation. -/
theorem std_exception_in_try_block_returns_null {E : Type} (G : Engine E) (host : Host)
    (heap : Heap E) (h : Nat) (text : List Byte) (protocol : Int) (volume : JFloat)
    (samples : List JFloat) (length : Int) :
    (∀ site what, site ≠ .copyText →
        Event.raised site (.stdException what) ∈
          (Java_expo_modules_ggwave_GGWaveEngine_nativeEncode G host heap h text protocol
            volume).events →
        (Java_expo_modules_ggwave_GGWaveEngine_nativeEncode G host heap h text protocol
            volume).outcome = .returned none)
      ∧ (∀ site what, site = .buildInput ∨ site = .rxDecode →
        Event.raised site (.stdException what) ∈
          (Java_expo_modules_ggwave_GGWaveEngine_nativeDecode G host heap h samples
            length).events →
        (Java_expo_modules_ggwave_GGWaveEngine_nativeDecode G host heap h samples
            length).outcome = .returned none)
      ∧ (∀ site tag,
        Event.raised site (.foreign tag) ∈
          (Java_expo_modules_ggwave_GGWaveEngine_nativeEncode G host heap h text protocol
            volume).events →
        (Java_expo_modules_ggwave_GGWaveEngine_nativeEncode G host heap h text protocol
            volume).outcome = .propagated (.foreign tag))
      ∧ (∀ site tag,
        Event.raised site (.foreign tag) ∈
          (Java_expo_modules_ggwave_GGWaveEngine_nativeDecode G host heap h samples
            length).events →
        (Java_expo_modules_ggwave_GGWaveEngine_nativeDecode G host heap h samples
            length).outcome = .propagated (.foreign tag)) := by
  refine ⟨?_, ?_, ?_, ?_⟩
  · intro site what hsite
    unfold Java_expo_modules_ggwave_GGWaveEngine_nativeEncode
    by_cases h0 : h = 0
    · simp [h0]
    · cases hget : host.getStringUTFChars
      · simp [h0, Run.after]
      · cases hcopy : host.stringThrows host.stringCopy (cString text).length with
        | some e =>
          simp only [h0, if_false, Run.after]
          intro hmem
          simp at hmem
          exact absurd hmem.1 hsite
        | none =>
          simp only [h0, if_false, Run.after]
          intro hmem
          simp at hmem
          have hbody := encodeTry_raised G host heap h (cString text) protocol volume site
            (.stdException what)
            (catchStd_events_raised _ _ site _ (by intro w; simp) hmem)
          simpa using catchStd_of_std _ _ what hbody
  · intro site what hsite
    unfold Java_expo_modules_ggwave_GGWaveEngine_nativeDecode decodeTry decodeCatch
    by_cases h0 : h = 0
    · simp [h0]
    · cases hget : host.getFloatArrayElements
      · simp [h0, Run.after]
      · simp only [h0, if_false, Run.after]
        repeat' split
        all_goals try simp
        all_goals (intros; simp_all [Event.isRelease])
        all_goals (intro hx; subst hx; simp_all)
  · intro site tag
    unfold Java_expo_modules_ggwave_GGWaveEngine_nativeEncode
    by_cases h0 : h = 0
    · simp [h0]
    · cases hget : host.getStringUTFChars
      · simp [h0, Run.after]
      · cases hcopy : host.stringThrows host.stringCopy (cString text).length with
        | some e =>
          simp only [h0, if_false, Run.after]
          intro hmem
          simp at hmem
          simp [hmem.2]
        | none =>
          simp only [h0, if_false, Run.after]
          intro hmem
          simp at hmem
          have hbody := encodeTry_raised G host heap h (cString text) protocol volume site
            (.foreign tag)
            (catchStd_events_raised _ _ site _ (by intro w; simp) hmem)
          rw [catchStd_of_foreign _ _ tag hbody]
          exact hbody
  · intro site tag
    unfold Java_expo_modules_ggwave_GGWaveEngine_nativeDecode
    by_cases h0 : h = 0
    · simp [h0]
    · cases hget : host.getFloatArrayElements
      · simp [h0, Run.after]
      · simp only [h0, if_false, Run.after]
        intro hmem
        simp at hmem
        have hbody := decodeTry_raised G host heap h samples length site
          (.foreign tag) (decodeCatch_events_raised _ site _ hmem)
        rw [decodeCatch_of_foreign _ tag hbody]
        exact hbody

/-- Witness for C1, amended: the engine throws a std::runtime_error from the
transmit-initialize step on a live handle, and encode returns null. -/
theorem std_exception_in_try_block_returns_null_witness :
    Event.raised .txInit (.stdException "std::runtime_error") ∈
        (Java_expo_modules_ggwave_GGWaveEngine_nativeEncode (scripted stdInitScript) happyHost oneSession 7 [104, 105] 1 0).events
      ∧ (Java_expo_modules_ggwave_GGWaveEngine_nativeEncode (scripted stdInitScript) happyHost oneSession 7 [104, 105] 1 0).outcome
        = .returned none :=
  ⟨by decide,
   (std_exception_in_try_block_returns_null (scripted stdInitScript) happyHost oneSession 7
      [104, 105] 1 0 [] 0).1 .txInit "std::runtime_error" (by decide) (by decide)⟩

/-- The copy of the host text into cppText (line 57) stands before the try
block of line 62: when the text is too long to be stored in place and the
allocation fails, the std::bad_alloc leaves encode. -/
theorem text_copy_exception_escapes_encode :
    (cString longText).length = 24
      ∧ (Java_expo_modules_ggwave_GGWaveEngine_nativeEncode (scripted happyScript) textCopyFailsHost oneSession 7 longText 1 0).outcome
        = .propagated (.stdException "std::bad_alloc")
      ∧ (Java_expo_modules_ggwave_GGWaveEngine_nativeEncode (scripted happyScript) textCopyFailsHost oneSession 7 longText 1 0).events
        = [.getStringUTFChars, .raised .copyText (.stdException "std::bad_alloc")]
      ∧ (Java_expo_modules_ggwave_GGWaveEngine_nativeEncode (scripted happyScript) textCopyFailsHost oneSession 7 [104, 105] 1 0).outcome
        = .returned (some [10, 20, 30]) := by
  decide

/-! ## The encode path -/

theorem toJsize_of_lt (size : Nat) (hsize : size < 2147483648) :
    toJsize size = (size : Int) := by
  have hmod : size % 4294967296 = size := Nat.mod_eq_of_lt (by omega)
  simp [toJsize, hmod, hsize]

theorem setFloatArrayRegion_fresh (len : Int) (buf : List JFloat) (hlen : 0 ≤ len) :
    setFloatArrayRegion (newFloatArray len.toNat) 0 len buf = buf.take len.toNat := by
  have hfit : len ≤ ((len.toNat : Nat) : Int) := by omega
  simp [setFloatArrayRegion, newFloatArray, hlen, hfit]

theorem setFloatArrayRegion_newFloatArray (buf : List JFloat)
    (hsize : buf.length < 2147483648) :
    setFloatArrayRegion (newFloatArray (toJsize buf.length).toNat) 0 (toJsize buf.length) buf
      = buf := by
  rw [toJsize_of_lt buf.length hsize, setFloatArrayRegion_fresh _ _ (by omega)]
  simp

theorem encodeTry_returns_output {E : Type} (G : Engine E) (host : Host) (heap : Heap E)
    (h : Nat) (cppText : List Byte) (protocol : Int) (volume : JFloat) (arr : List JFloat) :
    (encodeTry G host heap h cppText protocol volume).outcome = .returned (some arr) →
      ∃ st1 n st2 out st3, G.encode st1 = .ok n st2 ∧ 0 < n ∧ G.getOutput st2 = .ok out st3
        ∧ 0 ≤ toJsize out.length ∧ arr = out.take (toJsize out.length).toNat := by
  unfold encodeTry
  simp only [Run.after]
  repeat' split
  all_goals try simp
  rename_i st1 _ _ _ n st2 henc hn _ out st3 hout hnew
  have hlen : 0 ≤ toJsize out.length := by
    by_contra hneg
    exact hnew (Or.inl (by omega))
  rw [setFloatArrayRegion_fresh _ _ hlen]
  intro harr
  exact ⟨st1, n, st2, henc, by omega, out, ⟨st3, hout⟩, hlen, harr.symm⟩

theorem catchStd_returned_some {E α : Type} (body : Run E (Option α)) (evs : List Event)
    (a : α)
    (hret : (catchStd body (fun _ => (.returned none, evs))).outcome = .returned (some a)) :
    body.outcome = .returned (some a) := by
  unfold catchStd at hret
  split at hret
  · simp at hret
  · exact hret

/-- What encode returns when it returns an array: after a render step that
reported a positive size, the first len samples of the buffer the output
retrieval filled, where len is the size of that buffer as a jsize. -/
theorem encode_returns_output {E : Type} (G : Engine E) (host : Host) (heap : Heap E)
    (h : Nat) (text : List Byte) (protocol : Int) (volume : JFloat) (arr : List JFloat)
    (hret : (Java_expo_modules_ggwave_GGWaveEngine_nativeEncode G host heap h text
      protocol volume).outcome = .returned (some arr)) :
    ∃ st1 n st2 out st3, G.encode st1 = .ok n st2 ∧ 0 < n ∧ G.getOutput st2 = .ok out st3
      ∧ 0 ≤ toJsize out.length ∧ arr = out.take (toJsize out.length).toNat := by
  unfold Java_expo_modules_ggwave_GGWaveEngine_nativeEncode at hret
  by_cases h0 : h = 0
  · simp [h0] at hret
  · cases hget : host.getStringUTFChars
    · simp [h0, hget, Run.after] at hret
    · cases hcopy : host.stringThrows host.stringCopy (cString text).length with
      | some e => simp [h0, hget, hcopy, Run.after] at hret
      | none =>
        simp only [h0, hget, hcopy, if_false, Run.after] at hret
        exact encodeTry_returns_output G host heap h (cString text) protocol volume arr
          (catchStd_returned_some _ _ arr (by simpa using hret))

/-- C4, as stated, fails: an engine whose render step reports a positive size
and whose output retrieval then leaves the buffer empty makes encode return an
array of length 0, not null. -/
theorem encode_returns_empty_array :
    find oneSession 7 = some 0
      ∧ (scripted emptyOutputScript).encode 1 = .ok 1 2
      ∧ (scripted emptyOutputScript).getOutput 2 = .ok [] 3
      ∧ (Java_expo_modules_ggwave_GGWaveEngine_nativeEncode (scripted emptyOutputScript) happyHost oneSession 7 [104, 105] 1 0).outcome
        = .returned (some []) := by
  decide

/-- C4, amended. For every engine whose output retrieval, whenever the render
step before it reported a positive size, yields at least one sample and fewer
than 2^31 samples (so that the size of the buffer fits a jsize), and for every
handle, text, protocol id and volume, an array returned by encode is not
empty: the result is null or a non-empty sequence of samples. -/
theorem encode_null_or_nonempty {E : Type} (G : Engine E) (host : Host) (heap : Heap E)
    (h : Nat) (text : List Byte) (protocol : Int) (volume : JFloat)
    (hengine : ∀ st1 n st2 out st3, G.encode st1 = .ok n st2 → 0 < n →
      G.getOutput st2 = .ok out st3 → out ≠ [] ∧ out.length < 2147483648)
    (arr : List JFloat)
    (hret : (Java_expo_modules_ggwave_GGWaveEngine_nativeEncode G host heap h text
      protocol volume).outcome = .returned (some arr)) :
    arr ≠ [] := by
  obtain ⟨st1, n, st2, out, st3, henc, hn, hout, _, harr⟩ :=
    encode_returns_output G host heap h text protocol volume arr hret
  obtain ⟨hne, hsize⟩ := hengine st1 n st2 out st3 henc hn hout
  rw [toJsize_of_lt out.length hsize] at harr
  simp at harr
  rw [harr]
  exact hne

/-- Witness for C4, amended: the scripted engine always retrieves three
samples, and encode returns them. -/
theorem encode_null_or_nonempty_witness :
    (Java_expo_modules_ggwave_GGWaveEngine_nativeEncode (scripted happyScript) happyHost
        oneSession 7 [104, 105] 1 0).outcome = .returned (some [10, 20, 30])
      ∧ ([10, 20, 30] : List JFloat) ≠ [] :=
  ⟨by decide,
   encode_null_or_nonempty (scripted happyScript) happyHost oneSession 7 [104, 105] 1 0
     (by
       intro st1 n st2 out st3 _ _ hout
       simp [scripted, happyScript, Reply.step] at hout
       rw [← hout.1]
       decide)
     [10, 20, 30] (by decide)⟩

/-- C5, as stated, fails: every condition of a successful encode holds, the
render step reports 2 samples, the output retrieval fills the buffer with 3,
and the returned array has length 3. -/
theorem encode_length_is_not_render_count :
    find oneSession 7 = some 0
      ∧ happyHost.getStringUTFChars = true
      ∧ (scripted shortCountScript).init 0 (cString [104, 105]) 1 0 = .ok 1 1
      ∧ (scripted shortCountScript).encode 1 = .ok 2 2
      ∧ (scripted shortCountScript).getOutput 2 = .ok [10, 20, 30] 3
      ∧ happyHost.newFloatArray = true
      ∧ (Java_expo_modules_ggwave_GGWaveEngine_nativeEncode (scripted shortCountScript) happyHost oneSession 7 [104, 105] 1 0).outcome
        = .returned (some [10, 20, 30])
      ∧ ([10, 20, 30] : List JFloat).length ≠ 2 := by
  decide

/-- C5, amended. For every successful encode (live handle, text extracted and
copied, transmit-initialize non-zero, render size n > 0, output retrieved,
host array allocated) in which the output retrieval fills the buffer with
fewer than 2^31 samples (so that its size fits a jsize), the returned host
array is exactly that buffer: same length, same samples in the same order,
nothing scaled or clamped. Its length is the size of that buffer; the render
count n is only tested for being positive. -/
theorem encode_returns_retrieved_samples {E : Type} (G : Engine E) (host : Host)
    (heap : Heap E) (h : Nat) (text : List Byte) (protocol : Int) (volume : JFloat)
    (st0 st1 st2 st3 : E) (r n : Int) (out : List JFloat)
    (hh : h ≠ 0) (hlive : find heap h = some st0)
    (hget : host.getStringUTFChars = true) (hcopy : host.stringCopy = none)
    (hinit : G.init st0 (cString text) protocol volume = .ok r st1) (hr : r ≠ 0)
    (henc : G.encode st1 = .ok n st2) (hn : 0 < n)
    (hout : G.getOutput st2 = .ok out st3) (hsize : out.length < 2147483648)
    (hnew : host.newFloatArray = true) :
    (Java_expo_modules_ggwave_GGWaveEngine_nativeEncode G host heap h text protocol
        volume).outcome = .returned (some out)
      ∧ (∀ arr, (Java_expo_modules_ggwave_GGWaveEngine_nativeEncode G host heap h text protocol
        volume).outcome = .returned (some arr) → arr.length = out.length)
      ∧ Event.newFloatArray (out.length : Int) ∈
        (Java_expo_modules_ggwave_GGWaveEngine_nativeEncode G host heap h text protocol
          volume).events
      ∧ Event.setFloatArrayRegion 0 (out.length : Int) ∈
        (Java_expo_modules_ggwave_GGWaveEngine_nativeEncode G host heap h text protocol
          volume).events := by
  have hn2 : ¬ n ≤ 0 := by omega
  have hj : toJsize out.length = (out.length : Int) := toJsize_of_lt _ hsize
  have hset := setFloatArrayRegion_newFloatArray out hsize
  rw [hj] at hset
  have hnn : ¬ ((out.length : Int) < 0) := by omega
  simp [Java_expo_modules_ggwave_GGWaveEngine_nativeEncode, encodeTry, catchStd, Run.after,
    Host.stringThrows, hh, hlive, hget, hcopy, hinit, hr, henc, hn2, hout, hnew, hj, hnn]
  simp only [Int.toNat_ofNat] at hset
  rw [hset]
  exact ⟨rfl, rfl⟩

/-- Witness for C5, amended: the scripted engine on the live handle 7. -/
theorem encode_returns_retrieved_samples_witness :
    (Java_expo_modules_ggwave_GGWaveEngine_nativeEncode (scripted happyScript) happyHost
        oneSession 7 [104, 105] 1 0).outcome = .returned (some [10, 20, 30]) :=
  (encode_returns_retrieved_samples (scripted happyScript) happyHost oneSession 7
    [104, 105] 1 0 0 1 2 3 1 3 [10, 20, 30] (by decide) rfl rfl rfl rfl (by decide) rfl
    (by decide) rfl (by decide) rfl).1

/-- Past the range of jsize the sizes of lines 84 and 90 wrap: when the output
retrieval fills the buffer with 2^32 samples, NewFloatArray is asked for 0
elements and encode returns an empty array. -/
theorem encode_wraps_past_jsize {E : Type} (G : Engine E) (host : Host)
    (heap : Heap E) (h : Nat) (text : List Byte) (protocol : Int) (volume : JFloat)
    (st0 st1 st2 st3 : E) (r n : Int) (out : List JFloat)
    (hh : h ≠ 0) (hlive : find heap h = some st0)
    (hget : host.getStringUTFChars = true) (hcopy : host.stringCopy = none)
    (hinit : G.init st0 (cString text) protocol volume = .ok r st1) (hr : r ≠ 0)
    (henc : G.encode st1 = .ok n st2) (hn : 0 < n)
    (hout : G.getOutput st2 = .ok out st3) (hsize : out.length = 4294967296)
    (hnew : host.newFloatArray = true) :
    (Java_expo_modules_ggwave_GGWaveEngine_nativeEncode G host heap h text protocol
        volume).outcome = .returned (some []) := by
  have hn2 : ¬ n ≤ 0 := by omega
  have hj : toJsize out.length = 0 := by simp [toJsize, hsize]
  simp [Java_expo_modules_ggwave_GGWaveEngine_nativeEncode, encodeTry, catchStd, Run.after,
    Host.stringThrows, hh, hlive, hget, hcopy, hinit, hr, henc, hn2, hout, hnew, hj,
    setFloatArrayRegion, newFloatArray]

/-- C8. On a live handle, with the text extracted and copied: when
transmit-initialize returns zero, encode returns null without calling the
render step; when the render step returns a size that is not positive, encode
returns null without retrieving output. In both cases the instance is not
deleted and the handle still maps to it (in the state the engine left it in),
and every other session is untouched. -/
theorem encode_rejection_keeps_session {E : Type} (G : Engine E) (host : Host)
    (heap : Heap E) (h : Nat) (text : List Byte) (protocol : Int) (volume : JFloat)
    (st0 : E) (hh : h ≠ 0) (hlive : find heap h = some st0)
    (hget : host.getStringUTFChars = true) (hcopy : host.stringCopy = none) :
    (∀ st1, G.init st0 (cString text) protocol volume = .ok 0 st1 →
        (Java_expo_modules_ggwave_GGWaveEngine_nativeEncode G host heap h text protocol
            volume).outcome = .returned none
        ∧ Event.engEncode h ∉
          (Java_expo_modules_ggwave_GGWaveEngine_nativeEncode G host heap h text protocol
            volume).events
        ∧ (∀ e ∈ (Java_expo_modules_ggwave_GGWaveEngine_nativeEncode G host heap h text
            protocol volume).events, ∀ a, e ≠ Event.engDelete a)
        ∧ find (Java_expo_modules_ggwave_GGWaveEngine_nativeEncode G host heap h text
            protocol volume).heap h = some st1
        ∧ (∀ h2, h2 ≠ h →
          find (Java_expo_modules_ggwave_GGWaveEngine_nativeEncode G host heap h text
            protocol volume).heap h2 = find heap h2))
      ∧ (∀ r st1 n st2, G.init st0 (cString text) protocol volume = .ok r st1 → r ≠ 0 →
        G.encode st1 = .ok n st2 → n ≤ 0 →
        (Java_expo_modules_ggwave_GGWaveEngine_nativeEncode G host heap h text protocol
            volume).outcome = .returned none
        ∧ Event.engGetOutput h ∉
          (Java_expo_modules_ggwave_GGWaveEngine_nativeEncode G host heap h text protocol
            volume).events
        ∧ (∀ e ∈ (Java_expo_modules_ggwave_GGWaveEngine_nativeEncode G host heap h text
            protocol volume).events, ∀ a, e ≠ Event.engDelete a)
        ∧ find (Java_expo_modules_ggwave_GGWaveEngine_nativeEncode G host heap h text
            protocol volume).heap h = some st2
        ∧ (∀ h2, h2 ≠ h →
          find (Java_expo_modules_ggwave_GGWaveEngine_nativeEncode G host heap h text
            protocol volume).heap h2 = find heap h2)) := by
  refine ⟨?_, ?_⟩
  · intro st1 hinit
    simp [Java_expo_modules_ggwave_GGWaveEngine_nativeEncode, encodeTry, catchStd,
      Run.after, Host.stringThrows, hh, hlive, hget, hcopy, hinit, find_store]
    intro h2 hne
    simp [hne]
  · intro r st1 n st2 hinit hr henc hn
    simp [Java_expo_modules_ggwave_GGWaveEngine_nativeEncode, encodeTry, catchStd,
      Run.after, Host.stringThrows, hh, hlive, hget, hcopy, hinit, hr, henc, hn, find_store]
    intro h2 hne
    simp [hne]

/-- Witness for C8: the engine rejects the request on the live handle 7, and
then renders nothing on a second engine. -/
theorem encode_rejection_keeps_session_witness :
    (Java_expo_modules_ggwave_GGWaveEngine_nativeEncode (scripted rejectScript) happyHost oneSession 7 [104, 105] 99 0).outcome
        = .returned none
      ∧ find (Java_expo_modules_ggwave_GGWaveEngine_nativeEncode (scripted rejectScript) happyHost oneSession 7 [104, 105] 99 0).heap 7
        = some 1 :=
  ⟨((encode_rejection_keeps_session (scripted rejectScript) happyHost oneSession 7
      [104, 105] 99 0 0 (by decide) rfl rfl rfl).1 1 rfl).1,
   ((encode_rejection_keeps_session (scripted rejectScript) happyHost oneSession 7
      [104, 105] 99 0 0 (by decide) rfl rfl rfl).1 1 rfl).2.2.2.1⟩

/-! ## The decode path -/

/-- C6. On a live handle, with the sample buffer extracted, length within the
host array and no exception raised by any step (the host string allocation of
NewStringUTF included), let k be what the engine decode step returns on the
first length samples. If k > 0 the receive buffer is drained and decode
returns text, the chars NewStringUTF reads from the drained data. If k ≤ 0
decode returns null and the receive buffer is not drained. -/
theorem decode_drains_exactly_when_positive {E : Type} (G : Engine E) (host : Host)
    (heap : Heap E) (h : Nat) (samples : List JFloat) (length : Int) (st0 st1 : E) (k : Int)
    (hh : h ≠ 0) (hlive : find heap h = some st0)
    (hget : host.getFloatArrayElements = true)
    (hlo : 0 ≤ length) (hhi : length ≤ (samples.length : Int))
    (hcopy : host.vectorCopy = none)
    (hdec : G.decode st0 (samples.take length.toNat) = .ok k st1) :
    (0 < k → ∀ data st2, G.takeRxData st1 = .ok data st2 → host.stringBuild = none →
        host.newStringUTF = true →
        (Java_expo_modules_ggwave_GGWaveEngine_nativeDecode G host heap h samples
            length).outcome = .returned (some (cString data))
        ∧ Event.engTakeRxData h ∈
          (Java_expo_modules_ggwave_GGWaveEngine_nativeDecode G host heap h samples
            length).events
        ∧ find (Java_expo_modules_ggwave_GGWaveEngine_nativeDecode G host heap h samples
            length).heap h = some st2)
      ∧ (k ≤ 0 →
        (Java_expo_modules_ggwave_GGWaveEngine_nativeDecode G host heap h samples
            length).outcome = .returned none
        ∧ (∀ e ∈ (Java_expo_modules_ggwave_GGWaveEngine_nativeDecode G host heap h samples
            length).events, ∀ a, e ≠ Event.engTakeRxData a)
        ∧ find (Java_expo_modules_ggwave_GGWaveEngine_nativeDecode G host heap h samples
            length).heap h = some st1) := by
  have hrange : ¬ (length < 0 ∨ (samples.length : Int) < length) := by omega
  refine ⟨?_, ?_⟩
  · intro hk data st2 htake hbuild hnew
    simp [Java_expo_modules_ggwave_GGWaveEngine_nativeDecode, decodeTry, decodeCatch,
      Run.after, Host.vectorThrows, Host.stringThrows, hh, hlive, hget, hrange, hcopy, hdec, hk, htake, hbuild, hnew, find_store]
  · intro hk
    have hk2 : ¬ 0 < k := by omega
    simp [Java_expo_modules_ggwave_GGWaveEngine_nativeDecode, decodeTry, decodeCatch,
      Run.after, Host.vectorThrows, Host.stringThrows, hh, hlive, hget, hrange, hcopy, hdec, hk2, find_store]

/-- Witness for C6: two bytes are decoded from the first three of four samples
on the live handle 7. -/
theorem decode_drains_exactly_when_positive_witness :
    (Java_expo_modules_ggwave_GGWaveEngine_nativeDecode (scripted happyScript) happyHost
        oneSession 7 [1, 2, 3, 4] 3).outcome = .returned (some [104, 105])
      ∧ Event.engTakeRxData 7 ∈
        (Java_expo_modules_ggwave_GGWaveEngine_nativeDecode (scripted happyScript)
          happyHost oneSession 7 [1, 2, 3, 4] 3).events :=
  ⟨((decode_drains_exactly_when_positive (scripted happyScript) happyHost oneSession 7
      [1, 2, 3, 4] 3 0 1 2 (by decide) rfl rfl (by decide) (by decide) rfl rfl).1
      (by decide) [104, 105] 2 rfl rfl rfl).1,
   ((decode_drains_exactly_when_positive (scripted happyScript) happyHost oneSession 7
      [1, 2, 3, 4] 3 0 1 2 (by decide) rfl rfl (by decide) (by decide) rfl rfl).1
      (by decide) [104, 105] 2 rfl rfl rfl).2.1⟩

/-- C7 fails on the code. The engine reports 3 decoded bytes and the drain
yields the bytes 97, 0, 98; decodedString holds all three, but NewStringUTF
reads decodedString.c_str() as a C string, so the returned text holds the
byte 97 only. -/
theorem decode_truncates_at_zero_byte :
    find oneSession 7 = some 0
      ∧ (scripted zeroByteScript).decode 0 [1, 2, 3, 4] = .ok 3 1
      ∧ (scripted zeroByteScript).takeRxData 1 = .ok [97, 0, 98] 2
      ∧ (Java_expo_modules_ggwave_GGWaveEngine_nativeDecode (scripted zeroByteScript) happyHost oneSession 7 [1, 2, 3, 4] 4).outcome
        = .returned (some [97])
      ∧ (Java_expo_modules_ggwave_GGWaveEngine_nativeDecode (scripted zeroByteScript) happyHost oneSession 7 [1, 2, 3, 4] 4).outcome
        ≠ .returned (some [97, 0, 98]) := by
  decide

/-- A payload without a zero byte comes back whole: same bytes, same length,
same order. -/
theorem decode_returns_payload_without_zero {E : Type} (G : Engine E) (host : Host)
    (heap : Heap E) (h : Nat) (samples : List JFloat) (length : Int) (st0 st1 st2 : E)
    (k : Int) (data : List Byte)
    (hh : h ≠ 0) (hlive : find heap h = some st0)
    (hget : host.getFloatArrayElements = true)
    (hlo : 0 ≤ length) (hhi : length ≤ (samples.length : Int))
    (hcopy : host.vectorCopy = none)
    (hdec : G.decode st0 (samples.take length.toNat) = .ok k st1) (hk : 0 < k)
    (htake : G.takeRxData st1 = .ok data st2) (hbuild : host.stringBuild = none)
    (hnew : host.newStringUTF = true) (hzero : ∀ b ∈ data, b ≠ 0) :
    (Java_expo_modules_ggwave_GGWaveEngine_nativeDecode G host heap h samples
      length).outcome = .returned (some data) := by
  have hrange : ¬ (length < 0 ∨ (samples.length : Int) < length) := by omega
  have hc : cString data = data := by
    unfold cString
    rw [List.takeWhile_eq_self_iff]
    intro b hb
    simpa using hzero b hb
  simp [Java_expo_modules_ggwave_GGWaveEngine_nativeDecode, decodeTry, decodeCatch,
    Run.after, Host.vectorThrows, Host.stringThrows, hh, hlive, hget, hrange, hcopy, hdec, hk, htake, hbuild, hnew, hc]

/-- C10 fails on the code. The buffer is released on line 127, right after the
engine decode step; when the drain of the receive buffer or the construction
of decodedString then throws a std::exception, the handler on line 146
releases it a second time: two releases of one borrowed buffer, the second of
them undefined behaviour. -/
theorem decode_releases_buffer_twice :
    find oneSession 7 = some 0
      ∧ (scripted drainThrowsScript).decode 0 [1, 2, 3, 4] = .ok 2 1
      ∧ (scripted drainThrowsScript).takeRxData 1
        = .throws (.stdException "std::runtime_error") 2
      ∧ (Java_expo_modules_ggwave_GGWaveEngine_nativeDecode (scripted drainThrowsScript) happyHost oneSession 7 [1, 2, 3, 4] 4).events
        = [.getFloatArrayElements, .engDecode 7 [1, 2, 3, 4],
           .releaseFloatArrayElements .abort, .engTakeRxData 7,
           .raised .takeRxData (.stdException "std::runtime_error"),
           .releaseFloatArrayElements .abort]
      ∧ (Java_expo_modules_ggwave_GGWaveEngine_nativeDecode (scripted drainThrowsScript) happyHost oneSession 7
          [1, 2, 3, 4] 4).events.count (.releaseFloatArrayElements .abort) = 2
      ∧ (Java_expo_modules_ggwave_GGWaveEngine_nativeDecode (scripted drainThrowsScript) happyHost oneSession 7 [1, 2, 3, 4] 4).outcome
        = .undefined
      ∧ (Java_expo_modules_ggwave_GGWaveEngine_nativeDecode (scripted longPayloadScript)
          textBuildFailsHost oneSession 7
          [1, 2, 3, 4] 4).events.count (.releaseFloatArrayElements .abort) = 2
      ∧ (Java_expo_modules_ggwave_GGWaveEngine_nativeDecode (scripted longPayloadScript)
          textBuildFailsHost oneSession 7 [1, 2, 3, 4] 4).outcome = .undefined := by
  decide

set_option maxHeartbeats 2000000 in
/-- Where decode releases the borrowed buffer, on every path on which it was
acquired from a live handle with length inside the host array. Every release
is in discard mode. The buffer is released once when no statement throws, and
once when building the sample buffer or the engine decode step throws a
std::exception; twice when the drain or the text construction throws a
std::exception; not at all when building the sample buffer or the engine
decode step throws any other object. -/
theorem decode_release_count {E : Type} (G : Engine E) (host : Host) (heap : Heap E)
    (h : Nat) (samples : List JFloat) (length : Int) (st0 : E)
    (hh : h ≠ 0) (hlive : find heap h = some st0)
    (hget : host.getFloatArrayElements = true)
    (hlo : 0 ≤ length) (hhi : length ≤ (samples.length : Int)) :
    (∀ e ∈ (Java_expo_modules_ggwave_GGWaveEngine_nativeDecode G host heap h samples
          length).events, e.isRelease = true → e = .releaseFloatArrayElements .abort)
      ∧ ((∀ site e, Event.raised site e ∉
          (Java_expo_modules_ggwave_GGWaveEngine_nativeDecode G host heap h samples
            length).events) →
        (Java_expo_modules_ggwave_GGWaveEngine_nativeDecode G host heap h samples
          length).events.count (.releaseFloatArrayElements .abort) = 1)
      ∧ (∀ site what, Event.raised site (.stdException what) ∈
          (Java_expo_modules_ggwave_GGWaveEngine_nativeDecode G host heap h samples
            length).events →
        (Java_expo_modules_ggwave_GGWaveEngine_nativeDecode G host heap h samples
          length).events.count (.releaseFloatArrayElements .abort) =
            if site = .takeRxData ∨ site = .buildText then 2 else 1)
      ∧ (∀ site tag, Event.raised site (.foreign tag) ∈
          (Java_expo_modules_ggwave_GGWaveEngine_nativeDecode G host heap h samples
            length).events →
        (Java_expo_modules_ggwave_GGWaveEngine_nativeDecode G host heap h samples
          length).events.count (.releaseFloatArrayElements .abort) =
            if site = .takeRxData ∨ site = .buildText then 1 else 0) := by
  have hrange : ¬ (length < 0 ∨ (samples.length : Int) < length) := by omega
  unfold Java_expo_modules_ggwave_GGWaveEngine_nativeDecode decodeTry decodeCatch
  simp only [Run.after, hh, hlive, hget, hrange, if_false]
  refine ⟨?_, ?_, ?_, ?_⟩
  all_goals repeat' split
  all_goals try simp
  all_goals (intros; simp_all [Event.isRelease])
  all_goals (subst_vars; simp_all)

/-! ## Session creation -/

/-- C9, as stated, fails: the constructor of the engine throws an object that
is not a std::exception; construction has failed, yet initialize does not
return 0: the exception leaves it. -/
theorem init_failure_escapes :
    (scripted foreignCtorScript).construct params48k = .throws (.foreign 42)
      ∧ (Java_expo_modules_ggwave_GGWaveEngine_nativeInit (scripted foreignCtorScript) bumpAllocator oneSession 48000).outcome
        = .propagated (.foreign 42)
      ∧ (Java_expo_modules_ggwave_GGWaveEngine_nativeInit (scripted foreignCtorScript) bumpAllocator oneSession 48000).outcome
        ≠ .returned 0
      ∧ (Java_expo_modules_ggwave_GGWaveEngine_nativeInit (scripted foreignCtorScript) bumpAllocator oneSession 48000).events
        = [.logI "Initializing ggwave with sample rate", .engNew params48k,
           .raised .construct (.foreign 42)] := by
  decide

/-- C9, amended. For every sample rate r the engine is constructed with input
rate, output rate and internal rate all equal to r. If construction succeeds,
initialize returns a non-zero handle that is the address of no session live
before the call, the heap after the call is the heap before it plus that one
new instance under the returned handle, and every other handle maps to what
it mapped to before. If construction fails with an exception derived from
std::exception, initialize returns 0 and the heap is unchanged. A construction
failure of any other type leaves initialize as an exception, with the heap
unchanged. -/
theorem init_returns_fresh_handle_or_zero {E : Type} (G : Engine E) (A : Allocator)
    (heap : Heap E) (r : Int) :
    Event.engNew (Parameters.mk r r r) ∈
        (Java_expo_modules_ggwave_GGWaveEngine_nativeInit G A heap r).events
      ∧ (∀ st, G.construct (Parameters.mk r r r)
          = .ok st →
        ∃ a, (Java_expo_modules_ggwave_GGWaveEngine_nativeInit G A heap r).outcome
            = .returned a
          ∧ a ≠ 0
          ∧ a ∉ addresses heap
          ∧ find heap a = none
          ∧ (Java_expo_modules_ggwave_GGWaveEngine_nativeInit G A heap r).heap
            = (a, st) :: heap
          ∧ find (Java_expo_modules_ggwave_GGWaveEngine_nativeInit G A heap r).heap a
            = some st
          ∧ (∀ h2, h2 ≠ a →
            find (Java_expo_modules_ggwave_GGWaveEngine_nativeInit G A heap r).heap h2
              = find heap h2))
      ∧ (∀ what, G.construct (Parameters.mk r r r)
          = .throws (.stdException what) →
        (Java_expo_modules_ggwave_GGWaveEngine_nativeInit G A heap r).outcome = .returned 0
          ∧ (Java_expo_modules_ggwave_GGWaveEngine_nativeInit G A heap r).heap = heap)
      ∧ (∀ tag, G.construct (Parameters.mk r r r)
          = .throws (.foreign tag) →
        (Java_expo_modules_ggwave_GGWaveEngine_nativeInit G A heap r).outcome
            = .propagated (.foreign tag)
          ∧ (Java_expo_modules_ggwave_GGWaveEngine_nativeInit G A heap r).heap = heap) := by
  refine ⟨?_, ?_, ?_, ?_⟩
  · unfold Java_expo_modules_ggwave_GGWaveEngine_nativeInit catchStd
    simp only [Run.after]
    repeat' split
    all_goals simp
  · intro st hst
    refine ⟨A.pick (addresses heap), ?_, A.pick_ne_zero _, A.pick_fresh _,
      find_eq_none_of_not_mem heap _ (A.pick_fresh _), ?_, ?_, ?_⟩
    · simp [Java_expo_modules_ggwave_GGWaveEngine_nativeInit, catchStd, Run.after, hst]
    · simp [Java_expo_modules_ggwave_GGWaveEngine_nativeInit, catchStd, Run.after, hst]
    · simp [Java_expo_modules_ggwave_GGWaveEngine_nativeInit, catchStd, Run.after, hst,
        find]
    · intro h2 hne
      have hne2 : ¬ A.pick (addresses heap) = h2 := fun e => hne e.symm
      simp [Java_expo_modules_ggwave_GGWaveEngine_nativeInit, catchStd, Run.after, hst,
        find, hne2]
  · intro what hst
    simp [Java_expo_modules_ggwave_GGWaveEngine_nativeInit, catchStd, Run.after, hst]
  · intro tag hst
    simp [Java_expo_modules_ggwave_GGWaveEngine_nativeInit, catchStd, Run.after, hst]

/-- Witness for C9, amended: with session 7 live, a successful construction
at 48000 Hz returns handle 8 and keeps session 7; a std::runtime_error from
the constructor gives handle 0. -/
theorem init_returns_fresh_handle_or_zero_witness :
    (Java_expo_modules_ggwave_GGWaveEngine_nativeInit (scripted happyScript) bumpAllocator oneSession 48000).outcome = .returned 8
      ∧ (Java_expo_modules_ggwave_GGWaveEngine_nativeInit (scripted happyScript) bumpAllocator oneSession 48000).heap = [(8, 0), (7, 0)]
      ∧ (Java_expo_modules_ggwave_GGWaveEngine_nativeInit (scripted stdCtorScript) bumpAllocator oneSession 48000).outcome
        = .returned 0 :=
  ⟨by decide, by decide,
   ((init_returns_fresh_handle_or_zero (scripted stdCtorScript) bumpAllocator oneSession
      48000).2.2.1 "std::runtime_error" rfl).1⟩

end GGWaveJni
